import Mathlib

/-!
Shallow embedding of `src/server.js` (an Express proxy for the eBay Browse API).

The embedding models:
  * the token cache (`ebayToken` / `tokenExpiryTime` module-level variables),
  * `getEbayToken` (cache check, credential check, identity call, success and
    failure updates),
  * the `/api/ebay/search` handler (parameter construction with JS `parseInt`
    semantics, token acquisition, upstream call, error translation),
  * the `/api/ebay/item/:itemId` handler.

Network interactions are modelled by oracles (`IdentityResult`,
`UpstreamResult`) supplied as arguments: the functions record how many
outbound calls each invocation performs. Thrown JS errors are modelled by
`JsError`, carrying the optional `response` object axios attaches to HTTP
failures; `new Error(msg)` corresponds to a `JsError` with `response := none`.
-/

namespace EbayProxy

/-- Source line 46: `const tokenBufferSeconds = 300;`. -/
def tokenBufferSeconds : Int := 300

/-- Source line 34: `const CLOTHING_CATEGORY_ID = '11450';`. -/
def CLOTHING_CATEGORY_ID : String := "11450"

/-- The module-level mutable token cache:
`let ebayToken = null; let tokenExpiryTime = 0;` (source lines 44-45).
`none` models JS `null`. -/
structure TokenCache where
  ebayToken : Option String
  tokenExpiryTime : Int
deriving Repr, DecidableEq

/-- Process-wide configuration read at startup (source lines 12-29):
the environment flag and the selected credential pair. `none` models an
unset environment variable. -/
structure Config where
  isProduction : Bool
  EBAY_CLIENT_ID : Option String
  EBAY_CLIENT_SECRET : Option String
deriving Repr, DecidableEq

/-- JS truthiness of a string-or-undefined value: falsy iff absent or `""`. -/
def jsTruthy : Option String → Bool
  | none => false
  | some s => s ≠ ""

/-- The `response` object axios attaches to an HTTP-level failure:
`error.response.status` and `error.response.data` (data may be absent). -/
structure ErrResponse where
  status : Nat
  data : Option String
deriving Repr, DecidableEq

/-- A thrown JS error: its `message` and its optional axios `response`.
A plain `new Error(msg)` has `response := none`. -/
structure JsError where
  message : String
  response : Option ErrResponse
deriving Repr, DecidableEq

/-- Oracle for the identity endpoint call (source lines 69-78): either a
parsed `{access_token, expires_in}` body or an axios error. -/
inductive IdentityResult where
  | ok (access_token : String) (expires_in : Int)
  | err (e : JsError)
deriving Repr, DecidableEq

/-- Oracle for the upstream Browse API call: either a JSON body (opaque
string) or an axios error. -/
inductive UpstreamResult where
  | ok (data : String)
  | err (e : JsError)
deriving Repr, DecidableEq

/-- The cache-hit test, source line 50:
`if (ebayToken && tokenExpiryTime > now + tokenBufferSeconds * 1000)`. -/
def cacheHit (cache : TokenCache) (now : Int) : Bool :=
  jsTruthy cache.ebayToken &&
    decide (cache.tokenExpiryTime > now + tokenBufferSeconds * 1000)

/-- Environment display name used in the re-thrown token error message. -/
def envName (cfg : Config) : String :=
  if cfg.isProduction then "Production" else "Sandbox"

/-- Message of the error thrown when credentials are missing (source line 63). -/
def missingCredsMessage : String :=
  "Credenziali eBay non configurate sul server per l\x27ambiente corrente."

/-- Message of the error re-thrown after an identity-call failure (source
line 90): `Impossibile ottenere il token di accesso eBay per <env>.
Dettagli: <error.message>`. -/
def tokenFailMessage (cfg : Config) (e : JsError) : String :=
  "Impossibile ottenere il token di accesso eBay per " ++ envName cfg ++
    ". Dettagli: " ++ e.message

instance {ε α : Type} [DecidableEq ε] [DecidableEq α] :
    DecidableEq (Except ε α) := fun x y =>
  match x, y with
  | .ok a, .ok b =>
      if h : a = b then isTrue (by simp [h]) else isFalse (by simp [h])
  | .error a, .error b =>
      if h : a = b then isTrue (by simp [h]) else isFalse (by simp [h])
  | .ok _, .error _ => isFalse (by simp)
  | .error _, .ok _ => isFalse (by simp)

/-- Result of one `getEbayToken` invocation: the returned token or thrown
error, the cache state afterwards, and the number of identity-endpoint
calls performed. -/
structure TokenResult where
  result : Except JsError String
  cache : TokenCache
  identityCalls : Nat
deriving Repr, DecidableEq

/-- `getEbayToken` (source lines 48-92). `now` is `Date.now()` captured at
entry; `net` is the identity-endpoint oracle consulted iff the function
reaches the `axios.post`. On a cache hit the cached token is returned with
no network call; on a cache miss, missing credentials throw without a
network call and without touching the cache; otherwise one identity call is
made: success stores `{some token, now + expires_in * 1000}` and returns the
token, failure clears the cache to `{null, 0}` and throws a *new* `Error`
(so the axios `response` is not propagated). -/
def getEbayToken (cfg : Config) (cache : TokenCache) (now : Int)
    (net : IdentityResult) : TokenResult :=
  if cacheHit cache now then
    { result := .ok (cache.ebayToken.getD ""), cache := cache, identityCalls := 0 }
  else if !(jsTruthy cfg.EBAY_CLIENT_ID && jsTruthy cfg.EBAY_CLIENT_SECRET) then
    { result := .error { message := missingCredsMessage, response := none },
      cache := cache, identityCalls := 0 }
  else
    match net with
    | .ok tok exp =>
        { result := .ok tok,
          cache := { ebayToken := some tok, tokenExpiryTime := now + exp * 1000 },
          identityCalls := 1 }
    | .err e =>
        { result := .error { message := tokenFailMessage cfg e, response := none },
          cache := { ebayToken := none, tokenExpiryTime := 0 },
          identityCalls := 1 }

/-- Inbound query string of `/api/ebay/search`: each field absent or a
string (source line 97 destructures `req.query`). -/
structure SearchQuery where
  q : Option String
  limit : Option String
  offset : Option String
  category : Option String
deriving Repr, DecidableEq

/-- The outbound parameter object built by the search handler.
`limit`/`offset` are JS numbers produced by `parseInt`; `none` models `NaN`. -/
structure SearchParams where
  limit : Option Int
  offset : Option Int
  q : Option String
  category_ids : String
deriving Repr, DecidableEq

/-- JS WhiteSpace / LineTerminator characters recognised by `trim` and
`parseInt` (the common ASCII subset). -/
def jsWhitespace (c : Char) : Bool :=
  c = ' ' || c = '\t' || c = '\n' || c = '\r' || c = '\x0b' || c = '\x0c'

/-- JS `String.prototype.trim`: strip whitespace from both ends. -/
def jsTrim (s : String) : String :=
  String.mk (((s.toList.dropWhile jsWhitespace).reverse.dropWhile
    jsWhitespace).reverse)

/-- Value of a hex digit character, if any. -/
def hexDigitVal (c : Char) : Option Nat :=
  if c.isDigit then some (c.toNat - 48)
  else if 'a' ≤ c ∧ c ≤ 'f' then some (c.toNat - 87)
  else if 'A' ≤ c ∧ c ≤ 'F' then some (c.toNat - 55)
  else none

/-- Parse the maximal leading run of digits in the given radix; `none` if no
digit was consumed (JS `parseInt` yields `NaN` in that case). -/
def parseDigits (radix : Nat) : Nat → Bool → List Char → Option Nat
  | acc, consumed, [] => if consumed then some acc else none
  | acc, consumed, c :: rest =>
    match hexDigitVal c with
    | some d =>
        if d < radix then parseDigits radix (acc * radix + d) true rest
        else if consumed then some acc else none
    | none => if consumed then some acc else none

/-- JS `parseInt(s)` with no radix argument: trim whitespace, optional sign,
`0x`/`0X` selects radix 16 (else 10), parse the maximal digit run; `none`
models `NaN`. -/
def jsParseInt (s : String) : Option Int :=
  let cs := (jsTrim s).toList
  let signed : Int × List Char :=
    match cs with
    | '+' :: rest => (1, rest)
    | '-' :: rest => (-1, rest)
    | _ => (1, cs)
  let based : Nat × List Char :=
    match signed.2 with
    | '0' :: 'x' :: rest => (16, rest)
    | '0' :: 'X' :: rest => (16, rest)
    | _ => (10, signed.2)
  (parseDigits based.1 0 false based.2).map (fun n => signed.1 * (n : Int))

/-- Parameter construction of the search handler (source lines 97-111):
defaults `q = ''`, `limit = 20`, `offset = 0`, `category =
CLOTHING_CATEGORY_ID`; `limit`/`offset` through `parseInt`; `q` included
trimmed iff `q && q.trim() !== ''`; `category_ids` always set. -/
def buildSearchParams (query : SearchQuery) : SearchParams :=
  let q := query.q.getD ""
  let lim := query.limit.getD "20"
  let off := query.offset.getD "0"
  let category := query.category.getD CLOTHING_CATEGORY_ID
  { limit := jsParseInt lim,
    offset := jsParseInt off,
    q := if q ≠ "" && jsTrim q ≠ "" then some (jsTrim q) else none,
    category_ids := category }

/-- `error.response?.status || 500` (source lines 133 and 168): the upstream
status when a response is present and its status is truthy, else 500. -/
def statusOr500 (e : JsError) : Nat :=
  match e.response with
  | some r => if r.status = 0 then 500 else r.status
  | none => 500

/-- `error.response?.data || error.message` (source lines 135 and 170): the
upstream payload when present and truthy, else the error's message. -/
def detailsOf (e : JsError) : String :=
  match e.response with
  | some r =>
    match r.data with
    | some d => if d = "" then e.message else d
    | none => e.message
  | none => e.message

/-- A response body produced by a handler: the upstream JSON relayed
verbatim, a `{message, details}` error object, or the `{error}` object of
the missing-item-id check. -/
inductive RespBody where
  | data (body : String)
  | errorBody (message : String) (details : String)
  | missingId (error : String)
deriving Repr, DecidableEq

/-- Observable outcome of one handler invocation: HTTP status, JSON body,
cache state afterwards, outbound call counts, and the parameter object sent
with the upstream search call (when one was issued). -/
structure HandlerResult where
  status : Nat
  body : RespBody
  cache : TokenCache
  identityCalls : Nat
  upstreamCalls : Nat
  sentParams : Option SearchParams
deriving Repr, DecidableEq

/-- Generic message of the search handler's error body (source line 134). -/
def searchErrorMessage : String :=
  "Errore durante la comunicazione con l\x27API di eBay."

/-- Generic message of the item handler's error body (source line 169). -/
def itemErrorMessage : String :=
  "Errore durante la comunicazione con l\x27API di eBay per i dettagli dell\x27oggetto."

/-- Body of the 400 response for a missing item id (source line 146). -/
def missingItemIdError : String := "eBay Item ID mancante nell\x27URL."

/-- The `/api/ebay/search` handler (source lines 95-138): build the
parameter object, obtain a token (any thrown error falls to the shared
catch), issue one upstream call, relay its body on success; on any caught
error respond `error.response?.status || 500` with
`{message, details: error.response?.data || error.message}`. -/
def searchHandler (cfg : Config) (cache : TokenCache) (now : Int)
    (idNet : IdentityResult) (upNet : UpstreamResult)
    (query : SearchQuery) : HandlerResult :=
  let searchParams := buildSearchParams query
  let tr := getEbayToken cfg cache now idNet
  match tr.result with
  | .error e =>
      { status := statusOr500 e,
        body := .errorBody searchErrorMessage (detailsOf e),
        cache := tr.cache, identityCalls := tr.identityCalls,
        upstreamCalls := 0, sentParams := none }
  | .ok _ =>
      match upNet with
      | .ok d =>
          { status := 200, body := .data d, cache := tr.cache,
            identityCalls := tr.identityCalls, upstreamCalls := 1,
            sentParams := some searchParams }
      | .err e =>
          { status := statusOr500 e,
            body := .errorBody searchErrorMessage (detailsOf e),
            cache := tr.cache, identityCalls := tr.identityCalls,
            upstreamCalls := 1, sentParams := some searchParams }

/-- The `/api/ebay/item/:itemId` handler (source lines 141-173): a falsy
`itemId` (empty string) answers 400 `{error}` immediately, before any token
acquisition; otherwise same token/upstream/error flow as the search
handler, with its own generic message. -/
def itemHandler (cfg : Config) (cache : TokenCache) (now : Int)
    (idNet : IdentityResult) (upNet : UpstreamResult)
    (itemId : String) : HandlerResult :=
  if itemId = "" then
    { status := 400, body := .missingId missingItemIdError, cache := cache,
      identityCalls := 0, upstreamCalls := 0, sentParams := none }
  else
    let tr := getEbayToken cfg cache now idNet
    match tr.result with
    | .error e =>
        { status := statusOr500 e,
          body := .errorBody itemErrorMessage (detailsOf e),
          cache := tr.cache, identityCalls := tr.identityCalls,
          upstreamCalls := 0, sentParams := none }
    | .ok _ =>
        match upNet with
        | .ok d =>
            { status := 200, body := .data d, cache := tr.cache,
              identityCalls := tr.identityCalls, upstreamCalls := 1,
              sentParams := none }
        | .err e =>
            { status := statusOr500 e,
              body := .errorBody itemErrorMessage (detailsOf e),
              cache := tr.cache, identityCalls := tr.identityCalls,
              upstreamCalls := 1, sentParams := none }

/-! ## Claims -/

/-- C2 (counterexample): a token acquired at `t0 = 0` with lifetime
`L = 1000` seconds expires at `1000000`; the claimed boundary instant is
`t = t0 + L*1000 - 300000 = 700000`. There the cache-hit test
`tokenExpiryTime > now + 300000` is `1000000 > 1000000`, false: the call
performs one identity-endpoint call and returns the new token, not the
cached one — refuting the claim's inclusive boundary. -/
theorem getEbayToken_boundary_refresh_cex :
    (getEbayToken ⟨false, some "id", some "secret"⟩ ⟨some "cached-token", 1000000⟩
        700000 (.ok "new-token" 7200)).identityCalls = 1 ∧
    (getEbayToken ⟨false, some "id", some "secret"⟩ ⟨some "cached-token", 1000000⟩
        700000 (.ok "new-token" 7200)).result = .ok "new-token" ∧
    (getEbayToken ⟨false, some "id", some "secret"⟩ ⟨some "cached-token", 1000000⟩
        700000 (.ok "new-token" 7200)).result ≠ .ok "cached-token" := by
  decide

/-- C2 (amended): if a token was acquired at `t0` with lifetime `L` seconds
(and is a non-empty string), `getEbayToken` called at any `t` with
`t0 ≤ t < t0 + L*1000 - bufferWindow` (strictly before the boundary)
returns the cached token, leaves the cache unchanged, and performs no
network call. -/
theorem getEbayToken_cache_fresh (cfg : Config) (tok : String) (t0 L t : Int)
    (net : IdentityResult) (htok : tok ≠ "") (h1 : t0 ≤ t)
    (h2 : t < t0 + L * 1000 - tokenBufferSeconds * 1000) :
    getEbayToken cfg ⟨some tok, t0 + L * 1000⟩ t net =
      ⟨.ok tok, ⟨some tok, t0 + L * 1000⟩, 0⟩ := by
  have h2' : t < t0 + L * 1000 - 300 * 1000 := h2
  have hhit : cacheHit ⟨some tok, t0 + L * 1000⟩ t = true := by
    simp only [cacheHit, jsTruthy, tokenBufferSeconds, Bool.and_eq_true,
      decide_eq_true_iff]
    exact ⟨htok, by omega⟩
  simp [getEbayToken, hhit]

/-- C2 (witness): at `t0 = 0`, `L = 1000`, `t = 500000` (strictly before the
boundary `700000`) the cached token is returned with no identity call. -/
theorem getEbayToken_cache_fresh_w :
    getEbayToken ⟨false, some "id", some "secret"⟩
        ⟨some "cached-token", 1000000⟩ 500000 (.ok "x" 1) =
      ⟨.ok "cached-token", ⟨some "cached-token", 1000000⟩, 0⟩ :=
  getEbayToken_cache_fresh ⟨false, some "id", some "secret"⟩ "cached-token"
    0 1000 500000 (.ok "x" 1) (by decide) (by decide) (by decide)

/-- C3 (counterexample): with the cache holding a stale token
(`⟨some "stale-token", 100⟩` at `now = 1000000`) and no credentials
configured, `getEbayToken` fails with the missing-credentials error but the
cache still holds the stale token afterwards — the slot is *not* cleared on
this failure path, refuting "every failing invocation clears the slot". -/
theorem getEbayToken_credfail_keeps_cache_cex :
    (getEbayToken ⟨false, none, none⟩ ⟨some "stale-token", 100⟩ 1000000
        (.ok "t" 7200)).result = .error ⟨missingCredsMessage, none⟩ ∧
    (getEbayToken ⟨false, none, none⟩ ⟨some "stale-token", 100⟩ 1000000
        (.ok "t" 7200)).cache = ⟨some "stale-token", 100⟩ ∧
    (getEbayToken ⟨false, none, none⟩ ⟨some "stale-token", 100⟩ 1000000
        (.ok "t" 7200)).cache.ebayToken ≠ none := by
  decide

/-- C3 (amended): a failure of the identity-endpoint call clears the cache
slot entirely (`token = null`, `expiresAt = 0` together) and throws; the
missing-credentials failure, by contrast, throws while leaving the cache
exactly as it was (possibly still holding a stale token). -/
theorem getEbayToken_failure_cache_states :
    (∀ cfg cache now e, cacheHit cache now = false →
        jsTruthy cfg.EBAY_CLIENT_ID = true →
        jsTruthy cfg.EBAY_CLIENT_SECRET = true →
        (getEbayToken cfg cache now (.err e)).cache = ⟨none, 0⟩ ∧
        (getEbayToken cfg cache now (.err e)).result =
          .error ⟨tokenFailMessage cfg e, none⟩) ∧
    (∀ cfg cache now net, cacheHit cache now = false →
        (jsTruthy cfg.EBAY_CLIENT_ID && jsTruthy cfg.EBAY_CLIENT_SECRET)
          = false →
        (getEbayToken cfg cache now net).cache = cache ∧
        (getEbayToken cfg cache now net).result =
          .error ⟨missingCredsMessage, none⟩) := by
  constructor
  · intro cfg cache now e hmiss hid hsec
    simp [getEbayToken, hmiss, hid, hsec]
  · intro cfg cache now net hmiss hcred
    simp [getEbayToken, hmiss, hcred]

/-- C3 (witness): an identity failure on an empty cache with credentials
clears the slot; a credential failure on a stale cache keeps it. -/
theorem getEbayToken_failure_cache_states_w :
    ((getEbayToken ⟨false, some "id", some "secret"⟩ ⟨none, 0⟩ 1000
        (.err ⟨"network down", none⟩)).cache = ⟨none, 0⟩ ∧
      (getEbayToken ⟨false, some "id", some "secret"⟩ ⟨none, 0⟩ 1000
        (.err ⟨"network down", none⟩)).result =
        .error ⟨tokenFailMessage ⟨false, some "id", some "secret"⟩
          ⟨"network down", none⟩, none⟩) ∧
    ((getEbayToken ⟨false, none, none⟩ ⟨some "old", 100⟩ 1000000
        (.ok "t" 7200)).cache = ⟨some "old", 100⟩ ∧
      (getEbayToken ⟨false, none, none⟩ ⟨some "old", 100⟩ 1000000
        (.ok "t" 7200)).result = .error ⟨missingCredsMessage, none⟩) :=
  ⟨getEbayToken_failure_cache_states.1 ⟨false, some "id", some "secret"⟩
      ⟨none, 0⟩ 1000 ⟨"network down", none⟩ (by decide) (by decide) (by decide),
    getEbayToken_failure_cache_states.2 ⟨false, none, none⟩
      ⟨some "old", 100⟩ 1000000 (.ok "t" 7200) (by decide) (by decide)⟩

/-- C4: on any cache miss with credentials configured, `getEbayToken`
performs exactly one identity-endpoint call, whatever the outcome of that
call (both the success branch and the catch branch follow a single
`axios.post`); on success it returns the new token with a new expiry
`now + expires_in * 1000`; this holds in particular at any `t` strictly
past the freshness boundary of a previously acquired token; moreover every
invocation performs at most one identity call, and a cache hit performs
none. -/
theorem getEbayToken_single_refresh :
    (∀ cfg cache now net, cacheHit cache now = false →
        jsTruthy cfg.EBAY_CLIENT_ID = true →
        jsTruthy cfg.EBAY_CLIENT_SECRET = true →
        (getEbayToken cfg cache now net).identityCalls = 1) ∧
    (∀ cfg cache now newTok exp, cacheHit cache now = false →
        jsTruthy cfg.EBAY_CLIENT_ID = true →
        jsTruthy cfg.EBAY_CLIENT_SECRET = true →
        getEbayToken cfg cache now (.ok newTok exp) =
          ⟨.ok newTok, ⟨some newTok, now + exp * 1000⟩, 1⟩) ∧
    (∀ cfg tok t0 L t newTok exp,
        t > t0 + L * 1000 - tokenBufferSeconds * 1000 →
        jsTruthy cfg.EBAY_CLIENT_ID = true →
        jsTruthy cfg.EBAY_CLIENT_SECRET = true →
        getEbayToken cfg ⟨some tok, t0 + L * 1000⟩ t (.ok newTok exp) =
          ⟨.ok newTok, ⟨some newTok, t + exp * 1000⟩, 1⟩) ∧
    (∀ cfg cache now net, (getEbayToken cfg cache now net).identityCalls ≤ 1) ∧
    (∀ cfg cache now net, cacheHit cache now = true →
        (getEbayToken cfg cache now net).identityCalls = 0) := by
  refine ⟨?_, ?_, ?_, ?_, ?_⟩
  · intro cfg cache now net hmiss hid hsec
    cases net <;> simp [getEbayToken, hmiss, hid, hsec]
  · intro cfg cache now newTok exp hmiss hid hsec
    simp [getEbayToken, hmiss, hid, hsec]
  · intro cfg tok t0 L t newTok exp ht hid hsec
    have ht' : t > t0 + L * 1000 - 300 * 1000 := ht
    have hmiss : cacheHit ⟨some tok, t0 + L * 1000⟩ t = false := by
      simp only [cacheHit, jsTruthy, tokenBufferSeconds,
        Bool.and_eq_false_iff, decide_eq_false_iff_not]
      right
      omega
    simp [getEbayToken, hmiss, hid, hsec]
  · intro cfg cache now net
    unfold getEbayToken
    split
    · simp
    · split
      · simp
      · cases net <;> simp
  · intro cfg cache now net hhit
    simp [getEbayToken, hhit]

/-- C4 (witness): a stale cache (`expiry 1000000`, `now 900000`) with
credentials triggers exactly one identity call both when the call fails and
when it succeeds (then with a fresh expiry); a fresh cache triggers none. -/
theorem getEbayToken_single_refresh_w :
    (getEbayToken ⟨false, some "id", some "secret"⟩ ⟨some "old", 1000000⟩
        900000 (.err ⟨"network down", none⟩)).identityCalls = 1 ∧
    getEbayToken ⟨false, some "id", some "secret"⟩ ⟨some "old", 1000000⟩
        900000 (.ok "new" 7200) =
      ⟨.ok "new", ⟨some "new", 900000 + 7200 * 1000⟩, 1⟩ ∧
    (getEbayToken ⟨false, some "id", some "secret"⟩ ⟨some "old", 1000000⟩
        100 (.ok "new" 7200)).identityCalls = 0 :=
  ⟨getEbayToken_single_refresh.1 ⟨false, some "id", some "secret"⟩
      ⟨some "old", 1000000⟩ 900000 (.err ⟨"network down", none⟩) (by decide)
      (by decide) (by decide),
    getEbayToken_single_refresh.2.1 ⟨false, some "id", some "secret"⟩
      ⟨some "old", 1000000⟩ 900000 "new" 7200 (by decide) (by decide)
      (by decide),
    getEbayToken_single_refresh.2.2.2.2 ⟨false, some "id", some "secret"⟩
      ⟨some "old", 1000000⟩ 100 (.ok "new" 7200) (by decide)⟩

/-- C5: on a cache miss with the active environment's client id or secret
missing or empty, `getEbayToken` fails with the missing-credentials error,
leaves the cache unchanged, and performs no identity-endpoint call. -/
theorem getEbayToken_missing_credentials (cfg : Config) (cache : TokenCache)
    (now : Int) (net : IdentityResult)
    (hmiss : cacheHit cache now = false)
    (hcred : (jsTruthy cfg.EBAY_CLIENT_ID && jsTruthy cfg.EBAY_CLIENT_SECRET)
      = false) :
    getEbayToken cfg cache now net =
      ⟨.error ⟨missingCredsMessage, none⟩, cache, 0⟩ := by
  simp [getEbayToken, hmiss, hcred]

/-- C5 (witness): empty cache, client id set but secret empty: the
missing-credentials error, no identity call. -/
theorem getEbayToken_missing_credentials_w :
    getEbayToken ⟨false, some "id", some ""⟩ ⟨none, 0⟩ 1000 (.ok "t" 7200) =
      ⟨.error ⟨missingCredsMessage, none⟩, ⟨none, 0⟩, 0⟩ :=
  getEbayToken_missing_credentials ⟨false, some "id", some ""⟩ ⟨none, 0⟩
    1000 (.ok "t" 7200) (by decide) (by decide)

/-- C8: on a cache miss with credentials configured, a successful identity
response `{access_token, expires_in}` is stored as
`ebayToken = some access_token`, `tokenExpiryTime = now + expires_in * 1000`
(with `now` captured at entry), and the access token is returned. -/
theorem getEbayToken_success_updates (cfg : Config) (cache : TokenCache)
    (now : Int) (tok : String) (exp : Int)
    (hmiss : cacheHit cache now = false)
    (hid : jsTruthy cfg.EBAY_CLIENT_ID = true)
    (hsec : jsTruthy cfg.EBAY_CLIENT_SECRET = true) :
    getEbayToken cfg cache now (.ok tok exp) =
      ⟨.ok tok, ⟨some tok, now + exp * 1000⟩, 1⟩ := by
  simp [getEbayToken, hmiss, hid, hsec]

/-- C8 (witness): acquisition at `now = 5000` with `expires_in = 7200`
stores expiry `5000 + 7200 * 1000` and returns the token. -/
theorem getEbayToken_success_updates_w :
    getEbayToken ⟨true, some "id", some "secret"⟩ ⟨none, 0⟩ 5000
        (.ok "fresh-token" 7200) =
      ⟨.ok "fresh-token", ⟨some "fresh-token", 5000 + 7200 * 1000⟩, 1⟩ :=
  getEbayToken_success_updates ⟨true, some "id", some "secret"⟩ ⟨none, 0⟩
    5000 "fresh-token" 7200 (by decide) (by decide) (by decide)

/-- C10: whenever the cache holds a non-empty token with
`tokenExpiryTime > now + bufferWindow`, `getEbayToken` returns it with no
identity call and no cache change, for *every* configuration — in
particular when both client id and client secret are absent, since the
credential check only runs after the cache check fails. -/
theorem getEbayToken_cache_hit_ignores_credentials (cfg : Config)
    (cache : TokenCache) (now : Int) (net : IdentityResult) (tok : String)
    (htok : cache.ebayToken = some tok) (hne : tok ≠ "")
    (hfresh : cache.tokenExpiryTime > now + tokenBufferSeconds * 1000) :
    getEbayToken cfg cache now net = ⟨.ok tok, cache, 0⟩ := by
  have hhit : cacheHit cache now = true := by
    simp only [cacheHit, jsTruthy, htok, Bool.and_eq_true, decide_eq_true_iff]
    exact ⟨hne, hfresh⟩
  simp [getEbayToken, hhit, htok]

/-- C10 (witness): with both credentials absent and a fresh cached token,
the token is served from the cache with no network call. -/
theorem getEbayToken_cache_hit_ignores_credentials_w :
    getEbayToken ⟨false, none, none⟩ ⟨some "cached", 1000000⟩ 100
        (.ok "t" 7200) =
      ⟨.ok "cached", ⟨some "cached", 1000000⟩, 0⟩ :=
  getEbayToken_cache_hit_ignores_credentials ⟨false, none, none⟩
    ⟨some "cached", 1000000⟩ 100 (.ok "t" 7200) "cached" (by decide)
    (by decide) (by decide)

/-- C1 (counterexample): the identity endpoint rejects the grant with
status 401, yet the search handler responds 500, not 401: the catch in
`getEbayToken` re-throws a fresh `Error` (no `response` property), so
`error.response?.status` is undefined in the route handler and the `|| 500`
fallback fires. -/
theorem searchHandler_identity401_cex :
    (searchHandler ⟨false, some "id", some "secret"⟩ ⟨none, 0⟩ 1000
        (.err ⟨"Request failed with status code 401",
          some ⟨401, some "invalid_client"⟩⟩)
        (.ok "unused") ⟨none, none, none, none⟩).status = 500 ∧
    (searchHandler ⟨false, some "id", some "secret"⟩ ⟨none, 0⟩ 1000
        (.err ⟨"Request failed with status code 401",
          some ⟨401, some "invalid_client"⟩⟩)
        (.ok "unused") ⟨none, none, none, none⟩).status ≠ 401 := by
  decide

/-- C1 (amended): when the identity endpoint fails (any status, 401
included), the re-thrown error carries no upstream status, so the search
handler always responds 500 with a `⟨message, details⟩` body whose details
is the re-thrown error's message string, and no upstream search call is
made. -/
theorem searchHandler_identity_failure_500 (cfg : Config)
    (cache : TokenCache) (now : Int) (e : JsError) (upNet : UpstreamResult)
    (query : SearchQuery) (hmiss : cacheHit cache now = false)
    (hid : jsTruthy cfg.EBAY_CLIENT_ID = true)
    (hsec : jsTruthy cfg.EBAY_CLIENT_SECRET = true) :
    (searchHandler cfg cache now (.err e) upNet query).status = 500 ∧
    (searchHandler cfg cache now (.err e) upNet query).body =
      .errorBody searchErrorMessage (tokenFailMessage cfg e) ∧
    (searchHandler cfg cache now (.err e) upNet query).upstreamCalls = 0 := by
  simp [searchHandler, getEbayToken, hmiss, hid, hsec, statusOr500, detailsOf]

/-- C1 (witness): a concrete identity 401 produces a 500 with the
re-thrown message as details and no upstream call. -/
theorem searchHandler_identity_failure_500_w :
    (searchHandler ⟨false, some "id", some "secret"⟩ ⟨none, 0⟩ 1000
        (.err ⟨"Request failed with status code 401",
          some ⟨401, some "invalid_client"⟩⟩)
        (.ok "unused") ⟨none, none, none, none⟩).status = 500 ∧
    (searchHandler ⟨false, some "id", some "secret"⟩ ⟨none, 0⟩ 1000
        (.err ⟨"Request failed with status code 401",
          some ⟨401, some "invalid_client"⟩⟩)
        (.ok "unused") ⟨none, none, none, none⟩).body =
      .errorBody searchErrorMessage
        (tokenFailMessage ⟨false, some "id", some "secret"⟩
          ⟨"Request failed with status code 401",
            some ⟨401, some "invalid_client"⟩⟩) ∧
    (searchHandler ⟨false, some "id", some "secret"⟩ ⟨none, 0⟩ 1000
        (.err ⟨"Request failed with status code 401",
          some ⟨401, some "invalid_client"⟩⟩)
        (.ok "unused") ⟨none, none, none, none⟩).upstreamCalls = 0 :=
  searchHandler_identity_failure_500 ⟨false, some "id", some "secret"⟩
    ⟨none, 0⟩ 1000
    ⟨"Request failed with status code 401", some ⟨401, some "invalid_client"⟩⟩
    (.ok "unused") ⟨none, none, none, none⟩ (by decide) (by decide) (by decide)

/-- C6: the item handler with an empty `itemId` responds 400 with the
`⟨error⟩` body immediately: the cache is untouched and neither the identity
endpoint nor the upstream item endpoint is called, for every configuration,
cache state and oracle. -/
theorem itemHandler_empty_itemId (cfg : Config) (cache : TokenCache)
    (now : Int) (idNet : IdentityResult) (upNet : UpstreamResult) :
    itemHandler cfg cache now idNet upNet "" =
      ⟨400, .missingId missingItemIdError, cache, 0, 0, none⟩ := by
  simp [itemHandler]

/-- `jsTrim` of the empty string is empty, so a non-empty trimmed string
comes from a non-empty string. -/
theorem jsTrim_ne_empty {s : String} (h : jsTrim s ≠ "") : s ≠ "" := by
  intro hs
  subst hs
  exact h rfl

/-- C7: the outbound search parameter object always carries
`category_ids` (the caller's category, else the clothing constant
`"11450"`), `limit`/`offset` are the JS `parseInt` of the supplied values
with defaults `20`/`0`, and `q` is present iff the trimmed query is
non-empty, in which case it equals the trimmed query; when token
acquisition succeeds and the upstream returns 200, the handler responds
200 with the upstream body verbatim, having sent exactly these
parameters. -/
theorem searchParams_construction (query : SearchQuery) (cfg : Config)
    (cache : TokenCache) (now : Int) (idNet : IdentityResult)
    (d tok : String)
    (htok : (getEbayToken cfg cache now idNet).result = .ok tok) :
    (buildSearchParams query).category_ids =
      query.category.getD CLOTHING_CATEGORY_ID ∧
    (query.category = none →
      (buildSearchParams query).category_ids = "11450") ∧
    (buildSearchParams query).limit = jsParseInt (query.limit.getD "20") ∧
    (buildSearchParams query).offset = jsParseInt (query.offset.getD "0") ∧
    (query.limit = none → (buildSearchParams query).limit = some 20) ∧
    (query.offset = none → (buildSearchParams query).offset = some 0) ∧
    (jsTrim (query.q.getD "") ≠ "" →
      (buildSearchParams query).q = some (jsTrim (query.q.getD ""))) ∧
    (jsTrim (query.q.getD "") = "" → (buildSearchParams query).q = none) ∧
    (searchHandler cfg cache now idNet (.ok d) query).status = 200 ∧
    (searchHandler cfg cache now idNet (.ok d) query).body = .data d ∧
    (searchHandler cfg cache now idNet (.ok d) query).sentParams =
      some (buildSearchParams query) := by
  refine ⟨rfl, ?_, rfl, rfl, ?_, ?_, ?_, ?_, ?_, ?_, ?_⟩
  · intro hc
    simp [buildSearchParams, hc, CLOTHING_CATEGORY_ID]
  · intro hl
    simp [buildSearchParams, hl]
    decide
  · intro ho
    simp [buildSearchParams, ho]
    decide
  · intro hq
    have hq' : query.q.getD "" ≠ "" := jsTrim_ne_empty hq
    simp [buildSearchParams, hq, hq']
  · intro hq
    simp [buildSearchParams, hq]
  · simp [searchHandler, htok]
  · simp [searchHandler, htok]
  · simp [searchHandler, htok]

/-- C7 (witness): no query parameters at all: `category_ids = "11450"`,
`limit = 20`, `offset = 0`, no `q`; with a fresh-cache token success and an
upstream 200, the body is relayed verbatim. -/
theorem searchParams_construction_w :
    (buildSearchParams ⟨none, none, none, none⟩).category_ids =
      Option.getD none CLOTHING_CATEGORY_ID ∧
    (none = (none : Option String) →
      (buildSearchParams ⟨none, none, none, none⟩).category_ids = "11450") ∧
    (buildSearchParams ⟨none, none, none, none⟩).limit =
      jsParseInt (Option.getD none "20") ∧
    (buildSearchParams ⟨none, none, none, none⟩).offset =
      jsParseInt (Option.getD none "0") ∧
    (none = (none : Option String) →
      (buildSearchParams ⟨none, none, none, none⟩).limit = some 20) ∧
    (none = (none : Option String) →
      (buildSearchParams ⟨none, none, none, none⟩).offset = some 0) ∧
    (jsTrim (Option.getD none "") ≠ "" →
      (buildSearchParams ⟨none, none, none, none⟩).q =
        some (jsTrim (Option.getD none ""))) ∧
    (jsTrim (Option.getD none "") = "" →
      (buildSearchParams ⟨none, none, none, none⟩).q = none) ∧
    (searchHandler ⟨false, some "id", some "secret"⟩ ⟨some "tok", 1000000⟩ 100
        (.ok "t" 7200) (.ok "UPSTREAM-BODY") ⟨none, none, none, none⟩).status
      = 200 ∧
    (searchHandler ⟨false, some "id", some "secret"⟩ ⟨some "tok", 1000000⟩ 100
        (.ok "t" 7200) (.ok "UPSTREAM-BODY") ⟨none, none, none, none⟩).body
      = .data "UPSTREAM-BODY" ∧
    (searchHandler ⟨false, some "id", some "secret"⟩ ⟨some "tok", 1000000⟩ 100
        (.ok "t" 7200) (.ok "UPSTREAM-BODY")
        ⟨none, none, none, none⟩).sentParams
      = some (buildSearchParams ⟨none, none, none, none⟩) :=
  searchParams_construction ⟨none, none, none, none⟩
    ⟨false, some "id", some "secret"⟩ ⟨some "tok", 1000000⟩ 100
    (.ok "t" 7200) "UPSTREAM-BODY" "tok" (by decide)

/-- C9: when token acquisition succeeds and the upstream marketplace call
fails, both handlers respond with the upstream's status when a response is
present (and its status non-zero), else 500; the body is the handler's
generic message with the upstream payload as details when present and
truthy, else the error's message string. -/
theorem upstream_failure_translation (cfg : Config) (cache : TokenCache)
    (now : Int) (idNet : IdentityResult) (e : JsError) (query : SearchQuery)
    (itemId tok : String)
    (htok : (getEbayToken cfg cache now idNet).result = .ok tok)
    (hitem : itemId ≠ "") :
    (∀ r, e.response = some r → r.status ≠ 0 →
      (searchHandler cfg cache now idNet (.err e) query).status = r.status ∧
      (itemHandler cfg cache now idNet (.err e) itemId).status = r.status) ∧
    (e.response = none →
      (searchHandler cfg cache now idNet (.err e) query).status = 500 ∧
      (itemHandler cfg cache now idNet (.err e) itemId).status = 500) ∧
    (searchHandler cfg cache now idNet (.err e) query).body =
      .errorBody searchErrorMessage (detailsOf e) ∧
    (itemHandler cfg cache now idNet (.err e) itemId).body =
      .errorBody itemErrorMessage (detailsOf e) ∧
    (∀ r d, e.response = some r → r.data = some d → d ≠ "" →
      detailsOf e = d) ∧
    (e.response = none → detailsOf e = e.message) := by
  refine ⟨?_, ?_, ?_, ?_, ?_, ?_⟩
  · intro r hr hs0
    constructor
    · simp [searchHandler, htok, statusOr500, hr, hs0]
    · simp [itemHandler, hitem, htok, statusOr500, hr, hs0]
  · intro hr
    constructor
    · simp [searchHandler, htok, statusOr500, hr]
    · simp [itemHandler, hitem, htok, statusOr500, hr]
  · simp [searchHandler, htok]
  · simp [itemHandler, hitem, htok]
  · intro r d hr hd hne
    simp [detailsOf, hr, hd, hne]
  · intro hr
    simp [detailsOf, hr]

/-- C9 (witness): a concrete upstream 404 with payload is mirrored by both
handlers with the payload as details. -/
theorem upstream_failure_translation_w :
    (∀ r, (some ⟨404, some "not found"⟩ : Option ErrResponse) = some r →
      r.status ≠ 0 →
      (searchHandler ⟨false, some "id", some "secret"⟩ ⟨some "tok", 1000000⟩
        100 (.ok "t" 7200)
        (.err ⟨"Request failed with status code 404",
          some ⟨404, some "not found"⟩⟩)
        ⟨none, none, none, none⟩).status = r.status ∧
      (itemHandler ⟨false, some "id", some "secret"⟩ ⟨some "tok", 1000000⟩
        100 (.ok "t" 7200)
        (.err ⟨"Request failed with status code 404",
          some ⟨404, some "not found"⟩⟩) "v1|123|0").status = r.status) ∧
    ((some ⟨404, some "not found"⟩ : Option ErrResponse) = none →
      (searchHandler ⟨false, some "id", some "secret"⟩ ⟨some "tok", 1000000⟩
        100 (.ok "t" 7200)
        (.err ⟨"Request failed with status code 404",
          some ⟨404, some "not found"⟩⟩)
        ⟨none, none, none, none⟩).status = 500 ∧
      (itemHandler ⟨false, some "id", some "secret"⟩ ⟨some "tok", 1000000⟩
        100 (.ok "t" 7200)
        (.err ⟨"Request failed with status code 404",
          some ⟨404, some "not found"⟩⟩) "v1|123|0").status = 500) ∧
    (searchHandler ⟨false, some "id", some "secret"⟩ ⟨some "tok", 1000000⟩
        100 (.ok "t" 7200)
        (.err ⟨"Request failed with status code 404",
          some ⟨404, some "not found"⟩⟩)
        ⟨none, none, none, none⟩).body =
      .errorBody searchErrorMessage
        (detailsOf ⟨"Request failed with status code 404",
          some ⟨404, some "not found"⟩⟩) ∧
    (itemHandler ⟨false, some "id", some "secret"⟩ ⟨some "tok", 1000000⟩
        100 (.ok "t" 7200)
        (.err ⟨"Request failed with status code 404",
          some ⟨404, some "not found"⟩⟩) "v1|123|0").body =
      .errorBody itemErrorMessage
        (detailsOf ⟨"Request failed with status code 404",
          some ⟨404, some "not found"⟩⟩) ∧
    (∀ r d, (some ⟨404, some "not found"⟩ : Option ErrResponse) = some r →
      r.data = some d → d ≠ "" →
      detailsOf ⟨"Request failed with status code 404",
        some ⟨404, some "not found"⟩⟩ = d) ∧
    ((some ⟨404, some "not found"⟩ : Option ErrResponse) = none →
      detailsOf ⟨"Request failed with status code 404",
        some ⟨404, some "not found"⟩⟩ =
        "Request failed with status code 404") :=
  upstream_failure_translation ⟨false, some "id", some "secret"⟩
    ⟨some "tok", 1000000⟩ 100 (.ok "t" 7200)
    ⟨"Request failed with status code 404", some ⟨404, some "not found"⟩⟩
    ⟨none, none, none, none⟩ "v1|123|0" "tok" (by decide) (by decide)

end EbayProxy
